import Mathlib

/-!
Shallow embedding of the suggestion/generation rule engine of the
seo-writer-buddy server (TypeScript sources under `src/server/src` and the
unnamed handler parts).  Pure computation is modelled over `String`, `Int`,
`Nat` and `Rat`; each JavaScript `Math.random()` draw is threaded explicitly
as a rational parameter assumed to lie in `[0, 1)`; the relational store is
modelled as a list of rows passed in and out of each handler, and serial row
ids are assigned from the current table length at insertion time.

String primitives of the JavaScript runtime (`split(' ')`, `join(' ')`,
`toLowerCase`, `includes`) are modelled by structurally recursive functions
on the character list of a `String` so that concrete instances evaluate.
-/

namespace SeoWriter

/-- `true` when `pre` is a prefix of `l`. -/
def charsStartWith : List Char → List Char → Bool
  | [], _ => true
  | _ :: _, [] => false
  | p :: ps, c :: cs => p == c && charsStartWith ps cs

/-- `true` when `pat` occurs contiguously inside `l`. -/
def charsContains : List Char → List Char → Bool
  | [], pat => pat.isEmpty
  | c :: cs, pat => charsStartWith pat (c :: cs) || charsContains cs pat

/-- Model of JavaScript `s.includes(pat)`. -/
def strContains (s pat : String) : Bool :=
  charsContains s.data pat.data

/-- Model of JavaScript `s.toLowerCase()` (ASCII case folding). -/
def strToLower (s : String) : String :=
  String.mk (s.data.map Char.toLower)

/-- Helper for `splitOnSpace`: `cur` holds the current chunk reversed. -/
def splitOnSpaceAux : List Char → List Char → List String
  | [], cur => [String.mk cur.reverse]
  | c :: cs, cur =>
    if c = ' ' then String.mk cur.reverse :: splitOnSpaceAux cs []
    else splitOnSpaceAux cs (c :: cur)

/-- Model of JavaScript `s.split(' ')`: splits at every single space
character, keeping empty chunks, and maps `""` to `[""]`. -/
def splitOnSpace (s : String) : List String :=
  splitOnSpaceAux s.data []

/-- Model of JavaScript `xs.join(' ')`. -/
def joinSpace : List String → String
  | [] => ""
  | [x] => x
  | x :: y :: xs => x ++ " " ++ joinSpace (y :: xs)

/-- First-occurrence deduplication of a list of strings; model of the
JavaScript idiom `[...new Set(xs)]`, which keeps the first occurrence of
each element. -/
def dedupFirst (l : List String) : List String :=
  l.foldl (fun acc a => if a ∈ acc then acc else acc ++ [a]) []

/-- The ten fixed templated expansions pushed by `generateKeywordVariations`
in `src/server/src/handlers/keyword_research.ts` (the local
`baseVariations` array). -/
def baseVariations (seedKeyword : String) : List String :=
  [seedKeyword ++ " guide",
   seedKeyword ++ " tips",
   "best " ++ seedKeyword,
   "how to " ++ seedKeyword,
   seedKeyword ++ " tutorial",
   seedKeyword ++ " review",
   seedKeyword ++ " comparison",
   "top " ++ seedKeyword,
   seedKeyword ++ " benefits",
   seedKeyword ++ " cost"]

/-- From `src/server/src/handlers/keyword_research.ts`,
`generateKeywordVariations`.  JavaScript's `words.reverse()` reverses the
`words` array in place, so the subsequent `words.slice(0, -1)` is taken
from the already-reversed array; the embedding therefore drops the last
element of the reversed word list. -/
def generateKeywordVariations (seedKeyword : String) (includeRelated : Bool) :
    List String :=
  let variations := [seedKeyword]
  let variations :=
    if includeRelated then
      let variations := variations ++ baseVariations seedKeyword
      let words := (splitOnSpace seedKeyword).reverse
      if words.length > 1 then
        variations ++ [joinSpace words, joinSpace words.dropLast]
      else variations
    else variations
  dedupFirst variations

/-- Competition tier enumeration from `src/server/src/schema.ts`. -/
inductive Competition where
  | low
  | medium
  | high
  deriving DecidableEq, Repr

/-- One bundle of `Math.random()` draws consumed by `generateKeywordData`
for a single candidate keyword: base volume, volume scale, difficulty
perturbation, cpc perturbation, and the six trend values. -/
structure Rand9 where
  rVol : ℚ
  rScale : ℚ
  rDiff : ℚ
  rCpc : ℚ
  trend : Fin 6 → ℚ

/-- `q` is a possible value of `Math.random()`. -/
def unit01 (q : ℚ) : Prop := 0 ≤ q ∧ q < 1

/-- All draws of the bundle are possible `Math.random()` values. -/
def Rand9.Bounded (ρ : Rand9) : Prop :=
  unit01 ρ.rVol ∧ unit01 ρ.rScale ∧ unit01 ρ.rDiff ∧ unit01 ρ.rCpc ∧
    ∀ i, unit01 (ρ.trend i)

/-- Output record of `generateKeywordData` (the row content of the
`keywords` table, ids and timestamps aside).  `difficulty` and `cpc` are
stored as fixed-point text by the persistence layer and round-trip exactly,
so they are kept as rationals. -/
structure KeywordData where
  keyword : String
  search_volume : ℤ
  difficulty : ℚ
  cpc : ℚ
  competition : Competition
  trend_data : List ℤ

/-- The commercial-intent word list of `generateKeywordData`. -/
def commercialKeywords : List String :=
  ["best", "buy", "price", "cost", "review", "comparison"]

/-- The difficulty score of `generateKeywordData` before the 2-decimal
rounding applied in the returned object: base 30 or 60 depending on
length, perturbed by `(r - 0.5) * 40` and clamped to `[5, 100]`. -/
def rawDifficulty (keyword seedKeyword : String) (r : ℚ) : ℚ :=
  let baseDifficulty : ℚ := if keyword.length > seedKeyword.length then 30 else 60
  min 100 (max 5 (baseDifficulty + (r - 1/2) * 40))

/-- From `src/server/src/handlers/keyword_research.ts`,
`generateKeywordData`.  `Math.round` is modelled by Mathlib's `round`
(both compute `⌊x + 1/2⌋`), `Math.floor` by `Int.floor`.  The
`competition` tier is derived from the clamped difficulty *before* the
2-decimal rounding, exactly as in the source. -/
def generateKeywordData (keyword seedKeyword : String) (ρ : Rand9) :
    KeywordData :=
  let baseVolume : ℤ :=
    if keyword = seedKeyword then 10000 else ⌊ρ.rVol * 8000⌋ + 1000
  let search_volume : ℤ := ⌊(baseVolume : ℚ) * (1/2 + ρ.rScale * (1/2))⌋
  let difficulty : ℚ := rawDifficulty keyword seedKeyword ρ.rDiff
  let isCommercial : Bool :=
    commercialKeywords.any (fun word => strContains (strToLower keyword) word)
  let baseCpc : ℚ := if isCommercial then 7/2 else 6/5
  let cpc : ℚ := (round ((baseCpc + ρ.rCpc * 2) * 100) : ℤ) / 100
  let competition : Competition :=
    if difficulty > 70 then .high else if difficulty > 40 then .medium else .low
  { keyword := keyword
    search_volume := search_volume
    difficulty := (round (difficulty * 100) : ℤ) / 100
    cpc := cpc
    competition := competition
    trend_data := (List.finRange 6).map (fun i => ⌊ρ.trend i * 100⌋ + 50) }

/-- Modelled from the spec's words, for comparison with the code (claim C1):
the seed, the ten fixed templated expansions, the seed's words in reversed
order, and the seed with its last word dropped. -/
def claimedVariations (seedKeyword : String) : List String :=
  let words := splitOnSpace seedKeyword
  seedKeyword :: baseVariations seedKeyword ++
    [joinSpace words.reverse, joinSpace words.dropLast]

/-- Validated input of `performKeywordResearch`
(`keywordResearchInputSchema` in `src/server/src/schema.ts`; the zod
defaults are `language = "en"`, `include_related = true`,
`min_search_volume = 0`, `max_difficulty = 100`). -/
structure KeywordResearchInput where
  seed_keyword : String
  location : Option String
  language : String
  include_related : Bool
  min_search_volume : ℤ
  max_difficulty : ℚ

/-- A row of the `keywords` table. -/
structure KeywordRow where
  id : ℕ
  keyword : String
  search_volume : ℤ
  difficulty : ℚ
  cpc : ℚ
  competition : Competition
  trend_data : List ℤ

/-- The row inserted for a candidate that is not yet stored; the serial id
is assigned by the database. -/
def keywordRowOfData (id : ℕ) (d : KeywordData) : KeywordRow :=
  { id := id
    keyword := d.keyword
    search_volume := d.search_volume
    difficulty := d.difficulty
    cpc := d.cpc
    competition := d.competition
    trend_data := d.trend_data }

/-- One iteration of the per-candidate loop of `performKeywordResearch`:
look up an existing row by exact keyword match; if found push the existing
row onto the result, otherwise insert a new row and push it.  The state is
`(table, result-so-far)`. -/
def researchStep (st : List KeywordRow × List KeywordRow) (d : KeywordData) :
    List KeywordRow × List KeywordRow :=
  match st.1.find? (fun r => r.keyword == d.keyword) with
  | some r => (st.1, st.2 ++ [r])
  | none =>
    let newRow := keywordRowOfData (st.1.length + 1) d
    (st.1 ++ [newRow], st.2 ++ [newRow])

/-- The filtered candidate list of `performKeywordResearch` (the local
`keywordData` value): variations, each given metrics by
`generateKeywordData` with the seed as reference, then filtered by the
caller thresholds.  The `i`-th variation consumes the draw bundle `ρ i`. -/
def researchCandidates (input : KeywordResearchInput) (ρ : ℕ → Rand9) :
    List KeywordData :=
  ((generateKeywordVariations input.seed_keyword input.include_related).enum.map
    (fun p => generateKeywordData p.2 input.seed_keyword (ρ p.1))).filter
    (fun d => input.min_search_volume ≤ d.search_volume &&
      d.difficulty ≤ input.max_difficulty)

/-- From `src/server/src/handlers/keyword_research.ts`,
`performKeywordResearch`.  Returns `(returned rows, new table state)`. -/
def performKeywordResearch (input : KeywordResearchInput) (ρ : ℕ → Rand9)
    (db : List KeywordRow) : List KeywordRow × List KeywordRow :=
  let res := (researchCandidates input ρ).foldl researchStep (db, [])
  (res.2, res.1)

/-- Validated input of `performCompetitorAnalysis`
(`competitorAnalysisInputSchema` in `src/server/src/schema.ts`; `limit` is
a positive integer defaulting to 10). -/
structure CompetitorAnalysisInput where
  target_keyword : String
  location : Option String
  limit : ℕ

/-- A row of the `competitors` table (`analyzed_at` timestamp omitted; the
three authority/quality scores are stored as fixed-point text and
round-trip exactly). -/
structure CompetitorRow where
  id : ℕ
  domain : String
  title : String
  url : String
  meta_description : Option String
  word_count : ℤ
  domain_authority : ℚ
  page_authority : ℚ
  backlinks : ℤ
  ranking_position : ℕ
  target_keyword : String
  content_quality_score : ℚ

/-- The `Math.random()` draws consumed per mock competitor: variance,
word count, backlinks. -/
structure Rand3 where
  rVar : ℚ
  rWc : ℚ
  rBl : ℚ

/-- The fixed ordered domain list of `performCompetitorAnalysis`. -/
def competitorDomains : List String :=
  ["wikipedia.org", "medium.com", "hubspot.com", "moz.com",
   "searchengineland.com", "backlinko.com", "ahrefs.com", "semrush.com",
   "neilpatel.com", "contentmarketinginstitute.com"]

/-- Collapse every maximal run of whitespace into a single `'-'`; model of
the JavaScript `.replace(/\s+/g, '-')` (ASCII whitespace). -/
def dashWhitespaceRuns (l : List Char) : List Char :=
  (l.foldl (fun (acc : List Char × Bool) c =>
    if c.isWhitespace then (if acc.2 then acc.1 else acc.1 ++ ['-'], true)
    else (acc.1 ++ [c], false)) ([], false)).1

/-- The url slug of the target keyword:
`toLowerCase().replace(/\s+/g, '-')`. -/
def slugify (s : String) : String :=
  String.mk (dashWhitespaceRuns (strToLower s).data)

/-- The `i`-th (0-indexed) mock competitor pushed by
`performCompetitorAnalysis` in
`src/server/src/handlers/competitor_analysis.ts`; `domain.split('.')[0]`
is the prefix of the domain before its first dot.  The placeholder
`id: 0` is replaced at insertion time. -/
def mkMockCompetitor (targetKeyword : String) (i : ℕ) (ρ : Rand3) :
    CompetitorRow :=
  let domain := competitorDomains.getD i ""
  let rankingPosition := i + 1
  let baseAuthority : ℚ := max (95 - (rankingPosition : ℚ) * 8) 30
  let variance : ℚ := ρ.rVar * 10 - 5
  { id := 0
    domain := domain
    title := targetKeyword ++ " - Complete Guide | " ++
      String.mk (domain.data.takeWhile (fun c => c ≠ '.'))
    url := "https://" ++ domain ++ "/" ++ slugify targetKeyword
    meta_description := some ("Learn everything about " ++ targetKeyword ++
      " with our comprehensive guide. Expert insights, tips, and strategies.")
    word_count := ⌊ρ.rWc * 2000⌋ + 1500
    domain_authority := ((round (max (baseAuthority + variance) 10) : ℤ) : ℚ)
    page_authority := ((round (max ((baseAuthority - 5) + variance) 5) : ℤ) : ℚ)
    backlinks := ⌊ρ.rBl * 1000⌋ + 100 * (11 - (rankingPosition : ℤ))
    ranking_position := rankingPosition
    target_keyword := targetKeyword
    content_quality_score :=
      ((round (max (90 - (rankingPosition : ℚ) * 3 + variance) 40) : ℤ) : ℚ) }

/-- Insertion into a list kept ascending by `ranking_position`. -/
def insertByRank (r : CompetitorRow) : List CompetitorRow → List CompetitorRow
  | [] => [r]
  | x :: xs =>
    if r.ranking_position ≤ x.ranking_position then r :: x :: xs
    else x :: insertByRank r xs

/-- Insertion sort by ascending `ranking_position`: model of the query's
`ORDER BY ranking_position`. -/
def sortByRank : List CompetitorRow → List CompetitorRow
  | [] => []
  | x :: xs => insertByRank x (sortByRank xs)

/-- Serial id assignment for a batch insert. -/
def assignCompetitorIds (startId : ℕ) :
    List CompetitorRow → List CompetitorRow
  | [] => []
  | r :: rs => { r with id := startId } :: assignCompetitorIds (startId + 1) rs

/-- From `src/server/src/handlers/competitor_analysis.ts`,
`performCompetitorAnalysis`: return stored rows for the keyword (ordered
by ranking position, limited) when any exist, otherwise generate
`min(limit, 10)` mock rows, persist them and return the persisted
versions.  Returns `(returned rows, new table state)`. -/
def performCompetitorAnalysis (input : CompetitorAnalysisInput)
    (ρ : ℕ → Rand3) (db : List CompetitorRow) :
    List CompetitorRow × List CompetitorRow :=
  let results := (sortByRank (db.filter
    (fun r => r.target_keyword == input.target_keyword))).take input.limit
  if results.length > 0 then (results, db)
  else
    let mockCompetitors :=
      (List.range (min input.limit competitorDomains.length)).map
        (fun i => mkMockCompetitor input.target_keyword i (ρ i))
    if mockCompetitors.length > 0 then
      let inserted := assignCompetitorIds (db.length + 1) mockCompetitors
      (inserted, db ++ inserted)
    else ([], db)

/-- Content type enumeration from `src/server/src/schema.ts`. -/
inductive ContentType where
  | blog_post
  | article
  | guide
  | tutorial
  | review
  deriving DecidableEq, Repr

/-- Difficulty level enumeration from `src/server/src/schema.ts`. -/
inductive DifficultyLevel where
  | beginner
  | intermediate
  | advanced
  deriving DecidableEq, Repr

/-- One per-content-type outline template: word-count range, complexity
factor and section skeleton. -/
structure ContentTemplate where
  wordCountMin : ℤ
  wordCountMax : ℤ
  readingTimeMultiplier : ℚ
  sections : List String

/-- The module-level `CONTENT_TEMPLATES` table of
`src/server/src/handlers/generate_outline_suggestions.ts`. -/
def CONTENT_TEMPLATES : ContentType → ContentTemplate
  | .blog_post =>
    { wordCountMin := 800, wordCountMax := 2000, readingTimeMultiplier := 4,
      sections := ["Introduction and hook", "What is [keyword]?",
        "Benefits of [keyword]", "How to implement [keyword]",
        "Common mistakes to avoid", "Best practices and tips",
        "Conclusion and next steps"] }
  | .article =>
    { wordCountMin := 1200, wordCountMax := 3000, readingTimeMultiplier := 4,
      sections := ["Executive summary", "Background and context",
        "Key findings about [keyword]", "Analysis and implications",
        "Case studies and examples", "Future outlook", "Conclusion"] }
  | .guide =>
    { wordCountMin := 1500, wordCountMax := 4000, readingTimeMultiplier := 7/2,
      sections := ["Introduction to [keyword]",
        "Prerequisites and requirements", "Step 1: Getting started",
        "Step 2: Core implementation", "Step 3: Advanced techniques",
        "Troubleshooting common issues", "Resources and next steps"] }
  | .tutorial =>
    { wordCountMin := 1000, wordCountMax := 2500, readingTimeMultiplier := 3,
      sections := ["What you\x27ll learn", "Tools and setup required",
        "Step-by-step walkthrough", "Code examples and explanations",
        "Testing and validation", "Common pitfalls",
        "Summary and practice exercises"] }
  | .review =>
    { wordCountMin := 800, wordCountMax := 1800, readingTimeMultiplier := 9/2,
      sections := ["Introduction to [keyword]",
        "Key features and specifications", "Pros and cons analysis",
        "Performance evaluation", "Comparison with alternatives",
        "Pricing and value assessment", "Final verdict and recommendations"] }

/-- The validation at the top of `generateOutlineSuggestions`:
`Object.keys(CONTENT_TEMPLATES).includes(contentType)`; an invalid string
makes the handler throw. -/
def parseContentType : String → Option ContentType
  | "blog_post" => some .blog_post
  | "article" => some .article
  | "guide" => some .guide
  | "tutorial" => some .tutorial
  | "review" => some .review
  | _ => none

/-- Replace the first occurrence of `pat` by `rep`; model of the
single-argument-string JavaScript `String.prototype.replace`. -/
def replaceFirstAux (pat rep : List Char) : List Char → List Char
  | [] => []
  | c :: cs =>
    if charsStartWith pat (c :: cs) then rep ++ (c :: cs).drop pat.length
    else c :: replaceFirstAux pat rep cs

/-- `s.replace(pat, rep)` on strings. -/
def replaceFirst (s pat rep : String) : String :=
  String.mk (replaceFirstAux pat.data rep.data s.data)

/-- `generateSecondaryKeywords` of
`src/server/src/handlers/generate_outline_suggestions.ts`: the first two
generic variants plus the two content-type-specific variants. -/
def generateSecondaryKeywords (targetKeyword : String)
    (contentType : ContentType) : List String :=
  let baseKeywords := [targetKeyword ++ " guide", targetKeyword ++ " tips",
    "how to " ++ targetKeyword, targetKeyword ++ " benefits"]
  let typeSpecificKeywords : List String :=
    match contentType with
    | .blog_post => [targetKeyword ++ " explained", targetKeyword ++ " examples"]
    | .article => [targetKeyword ++ " analysis", targetKeyword ++ " research"]
    | .guide => [targetKeyword ++ " tutorial", targetKeyword ++ " step by step"]
    | .tutorial => [targetKeyword ++ " walkthrough", "learn " ++ targetKeyword]
    | .review => [targetKeyword ++ " comparison", targetKeyword ++ " evaluation"]
  baseKeywords.take 2 ++ typeSpecificKeywords

/-- `generateSEOSuggestions` of the same handler: five generic tips plus
two content-type-specific tips. -/
def generateSEOSuggestions (targetKeyword : String)
    (contentType : ContentType) : List String :=
  let baseSuggestions :=
    ["Include \"" ++ targetKeyword ++ "\" in the title and first paragraph",
     "Use keyword variations naturally throughout the content",
     "Add internal links to related content",
     "Optimize images with alt text containing relevant keywords",
     "Use header tags (H1, H2, H3) to structure content"]
  let typeSpecificSuggestions : List String :=
    match contentType with
    | .blog_post =>
      ["Include a compelling meta description under 160 characters",
       "Add social sharing buttons to increase engagement"]
    | .article =>
      ["Include data and statistics to support claims",
       "Add author bio and credentials for authority"]
    | .guide =>
      ["Create a table of contents for easy navigation",
       "Include downloadable resources or checklists"]
    | .tutorial =>
      ["Add code snippets with proper syntax highlighting",
       "Include screenshots or video demonstrations"]
    | .review =>
      ["Include product images and specifications",
       "Add comparison tables with competitors"]
  baseSuggestions ++ typeSpecificSuggestions

/-- `generateMetaDescription` of the same handler. -/
def generateMetaDescription (targetKeyword : String)
    (contentType : ContentType) : String :=
  match contentType with
  | .blog_post => "Discover everything you need to know about " ++
      targetKeyword ++ ". Learn best practices, tips, and expert insights " ++
      "in this comprehensive guide."
  | .article => "In-depth analysis of " ++ targetKeyword ++
      " with expert insights, research findings, and practical " ++
      "implications for your business."
  | .guide => "Complete step-by-step guide to " ++ targetKeyword ++
      ". Learn from basics to advanced techniques with practical " ++
      "examples and best practices."
  | .tutorial => "Learn " ++ targetKeyword ++
      " with our hands-on tutorial. Follow along with code examples " ++
      "and detailed explanations."
  | .review => "Honest review of " ++ targetKeyword ++
      ". Pros, cons, features, pricing, and comparisons to help you " ++
      "make an informed decision."

/-- One block of the generated outline structure. -/
structure OutlineSection where
  title : String
  subsections : List String

/-- The generated outline structure (serialized to JSON text at the
persistence boundary; kept structured here). -/
structure OutlineStructureVal where
  introduction : OutlineSection
  mainSections : List OutlineSection
  conclusion : OutlineSection

/-- The generated content outline (row content of `content_outlines`;
ids/timestamps omitted; JSON-serialized list fields kept structured). -/
structure OutlineData where
  title : String
  target_keyword : String
  secondary_keywords : List String
  meta_description : String
  word_count_target : ℤ
  outline_structure : OutlineStructureVal
  seo_suggestions : List String
  content_type : ContentType
  difficulty_level : DifficultyLevel
  estimated_reading_time : ℤ

/-- From `src/server/src/handlers/generate_outline_suggestions.ts`, the
exported `generateOutlineSuggestions` (the implemented one, not the
placeholder declaration): validates the content type, draws the word-count
target inside the template range with the single `Math.random()` draw `r`,
computes the reading time from the complexity-adjusted reading speed,
builds the outline structure, keywords, tips, meta description and title
from the templates, and derives the difficulty level.  `none` models the
thrown invalid-content-type error.  The string comparisons of the source's
difficulty branch become comparisons of the parsed content type. -/
def generateOutlineSuggestions (targetKeyword contentType : String) (r : ℚ) :
    Option OutlineData :=
  match parseContentType contentType with
  | none => none
  | some ct =>
    let template := CONTENT_TEMPLATES ct
    let wordCountTarget : ℤ :=
      ⌊r * ((template.wordCountMax : ℚ) - (template.wordCountMin : ℚ)) +
        (template.wordCountMin : ℚ)⌋
    let baseReadingSpeed : ℚ := 200
    let adjustedReadingSpeed : ℚ := baseReadingSpeed / template.readingTimeMultiplier
    let estimatedReadingTime : ℤ := ⌈(wordCountTarget : ℚ) / adjustedReadingSpeed⌉
    let outlineStructure : OutlineStructureVal :=
      { introduction :=
          { title := "Introduction",
            subsections := ["Hook and attention grabber",
              "Overview of " ++ targetKeyword, "What readers will learn"] }
        mainSections := template.sections.map (fun sec =>
          { title := replaceFirst sec "[keyword]" targetKeyword,
            subsections := (["Key points about " ++ strToLower sec,
              "Examples and case studies",
              "Practical applications"]).take 2 })
        conclusion :=
          { title := "Conclusion",
            subsections := ["Summary of key points", "Call to action",
              "Next steps"] } }
    let secondaryKeywords := generateSecondaryKeywords targetKeyword ct
    let seoSuggestions := generateSEOSuggestions targetKeyword ct
    let metaDescription := generateMetaDescription targetKeyword ct
    let difficultyLevel : DifficultyLevel :=
      if ct = .blog_post ∨ wordCountTarget < 1200 then .beginner
      else if ct = .guide ∨ ct = .tutorial ∨ wordCountTarget > 2500 then .advanced
      else .intermediate
    let title : String :=
      match ct with
      | .blog_post => "The Complete Guide to " ++ targetKeyword ++
          ": Everything You Need to Know"
      | .article => targetKeyword ++
          ": Analysis, Insights, and Best Practices for 2024"
      | .guide => "Step-by-Step Guide to " ++ targetKeyword ++
          ": From Beginner to Expert"
      | .tutorial => "Learn " ++ targetKeyword ++
          ": Hands-On Tutorial with Examples"
      | .review => targetKeyword ++
          " Review: Features, Pricing, and Is It Worth It?"
    some { title := title
           target_keyword := targetKeyword
           secondary_keywords := secondaryKeywords
           meta_description := metaDescription
           word_count_target := wordCountTarget
           outline_structure := outlineStructure
           seo_suggestions := seoSuggestions
           content_type := ct
           difficulty_level := difficultyLevel
           estimated_reading_time := estimatedReadingTime }

/-- Suggestion type enumeration from `src/server/src/schema.ts`. -/
inductive SuggestionType where
  | title
  | meta_description
  | headings
  | internal_links
  | images
  | keyword_density
  | readability
  deriving DecidableEq, Repr

/-- Priority enumeration from `src/server/src/schema.ts`. -/
inductive Priority where
  | high
  | medium
  | low
  deriving DecidableEq, Repr

/-- The string value of a difficulty level, as interpolated into
suggestion texts. -/
def DifficultyLevel.str : DifficultyLevel → String
  | .beginner => "beginner"
  | .intermediate => "intermediate"
  | .advanced => "advanced"

/-- A stored row of the `content_outlines` table, as read by the
optimization rule engine and by `updateContentOutline`.  Timestamps are
modelled as naturals. -/
structure ContentOutlineRow where
  id : ℕ
  title : String
  target_keyword : String
  secondary_keywords : Option String
  meta_description : Option String
  word_count_target : ℤ
  outline_structure : String
  seo_suggestions : Option String
  content_type : ContentType
  difficulty_level : DifficultyLevel
  estimated_reading_time : ℤ
  created_at : ℕ
  updated_at : ℕ

/-- One pushed suggestion (`CreateOptimizationSuggestionInput`). -/
structure SuggestionData where
  content_outline_id : ℕ
  suggestion_type : SuggestionType
  priority : Priority
  suggestion : String
  current_value : Option String
  recommended_value : Option String
  impact_score : ℚ
  is_implemented : Bool

/-- A row of the `optimization_suggestions` table. -/
structure SuggestionRow where
  id : ℕ
  content_outline_id : ℕ
  suggestion_type : SuggestionType
  priority : Priority
  suggestion : String
  current_value : Option String
  recommended_value : Option String
  impact_score : ℚ
  is_implemented : Bool
  created_at : ℕ

/-- Oracle for the JavaScript JSON library (external to the repository):
whether `JSON.parse` succeeds on a string, and, when the parsed value is an
array, its length (`none` when parsing fails or the value is not an
array). -/
structure JsonOracle where
  parseOk : String → Bool
  arrayLen? : String → Option ℕ

/-- `generateTitleSuggestions` from the optimization-suggestion handler
(unnamed source part): a too-long/too-short length suggestion followed by a
keyword-presence suggestion. -/
def generateTitleSuggestions (outline : ContentOutlineRow) :
    List SuggestionData :=
  let title := outline.title
  let targetKeyword := outline.target_keyword
  (if title.length > 60 then
    [{ content_outline_id := outline.id
       suggestion_type := .title
       priority := .high
       suggestion := "Title is too long for search results. Consider shortening to 50-60 characters."
       current_value := some (toString title.length ++ " characters")
       recommended_value := some "50-60 characters"
       impact_score := 85
       is_implemented := false }]
   else if title.length < 30 then
    [{ content_outline_id := outline.id
       suggestion_type := .title
       priority := .medium
       suggestion := "Title might be too short. Consider expanding to 30-60 characters for better SEO."
       current_value := some (toString title.length ++ " characters")
       recommended_value := some "30-60 characters"
       impact_score := 70
       is_implemented := false }]
   else []) ++
  (if strContains (strToLower title) (strToLower targetKeyword) then []
   else
    [{ content_outline_id := outline.id
       suggestion_type := .title
       priority := .high
       suggestion := "Include the target keyword in the title for better SEO ranking."
       current_value := some title
       recommended_value := some ("Title with \"" ++ targetKeyword ++ "\" included")
       impact_score := 90
       is_implemented := false }])

/-- `generateMetaDescriptionSuggestions` from the same handler.  JavaScript
`if (!metaDescription)` treats both `null` and the empty string as absent,
so the nullable column is read through `getD ""`. -/
def generateMetaDescriptionSuggestions (outline : ContentOutlineRow) :
    List SuggestionData :=
  let metaDescription := outline.meta_description.getD ""
  let targetKeyword := outline.target_keyword
  if metaDescription = "" then
    [{ content_outline_id := outline.id
       suggestion_type := .meta_description
       priority := .high
       suggestion := "Add a meta description to improve search result click-through rates."
       current_value := none
       recommended_value := some ("150-160 character description including \"" ++ targetKeyword ++ "\"")
       impact_score := 80
       is_implemented := false }]
  else
    (if metaDescription.length > 160 then
      [{ content_outline_id := outline.id
         suggestion_type := .meta_description
         priority := .medium
         suggestion := "Meta description is too long and may be truncated in search results."
         current_value := some (toString metaDescription.length ++ " characters")
         recommended_value := some "150-160 characters"
         impact_score := 65
         is_implemented := false }]
     else []) ++
    (if strContains (strToLower metaDescription) (strToLower targetKeyword) then []
     else
      [{ content_outline_id := outline.id
         suggestion_type := .meta_description
         priority := .medium
         suggestion := "Include the target keyword in meta description for better relevance."
         current_value := some metaDescription
         recommended_value := some ("Meta description with \"" ++ targetKeyword ++ "\" included")
         impact_score := 75
         is_implemented := false }])

/-- `generateHeadingSuggestions` from the same handler: one suggestion in
either branch of the `try`/`catch` around
`JSON.parse(outline.outline_structure || '{}')`. -/
def generateHeadingSuggestions (J : JsonOracle) (outline : ContentOutlineRow) :
    List SuggestionData :=
  let targetKeyword := outline.target_keyword
  if J.parseOk (if outline.outline_structure = "" then "\x7b\x7d"
      else outline.outline_structure) then
    [{ content_outline_id := outline.id
       suggestion_type := .headings
       priority := .medium
       suggestion := "Use H1-H6 tags in hierarchical order and include target keyword in H1 and some H2 headings."
       current_value := some "Current heading structure"
       recommended_value := some ("Hierarchical headings with \"" ++ targetKeyword ++ "\" in main headings")
       impact_score := 70
       is_implemented := false }]
  else
    [{ content_outline_id := outline.id
       suggestion_type := .headings
       priority := .high
       suggestion := "Create a clear heading structure with H1-H6 tags including the target keyword."
       current_value := some "Unstructured or missing headings"
       recommended_value := some ("Structured headings with \"" ++ targetKeyword ++ "\" in H1")
       impact_score := 85
       is_implemented := false }]

/-- `generateInternalLinkingSuggestions`: always one suggestion. -/
def generateInternalLinkingSuggestions (outline : ContentOutlineRow) :
    List SuggestionData :=
  [{ content_outline_id := outline.id
     suggestion_type := .internal_links
     priority := .medium
     suggestion := "Add 3-5 internal links to related content to improve site structure and user engagement."
     current_value := some "No internal linking strategy specified"
     recommended_value := some "3-5 relevant internal links with descriptive anchor text"
     impact_score := 60
     is_implemented := false }]

/-- `generateImageSuggestions`: always one suggestion. -/
def generateImageSuggestions (outline : ContentOutlineRow) :
    List SuggestionData :=
  [{ content_outline_id := outline.id
     suggestion_type := .images
     priority := .medium
     suggestion := "Optimize all images with descriptive alt text, file names, and appropriate file sizes."
     current_value := some "No image optimization specified"
     recommended_value := some ("Alt text including \"" ++ outline.target_keyword ++ "\" where relevant, compressed images")
     impact_score := 55
     is_implemented := false }]

/-- `generateKeywordDensitySuggestions`: one unconditional suggestion, plus
a low-priority one when `secondary_keywords` is truthy and parses to a
non-empty JSON array (parse failures silently ignored). -/
def generateKeywordDensitySuggestions (J : JsonOracle)
    (outline : ContentOutlineRow) : List SuggestionData :=
  let targetKeyword := outline.target_keyword
  [{ content_outline_id := outline.id
     suggestion_type := .keyword_density
     priority := .medium
     suggestion := "Maintain target keyword density of 1-2% and naturally incorporate secondary keywords."
     current_value := some "Keyword density not optimized"
     recommended_value := some ("\"" ++ targetKeyword ++ "\" at 1-2% density + secondary keywords naturally distributed")
     impact_score := 65
     is_implemented := false }] ++
  (match outline.secondary_keywords with
   | none => []
   | some s =>
     if s = "" then []
     else
       match J.arrayLen? s with
       | some n =>
         if n > 0 then
          [{ content_outline_id := outline.id
             suggestion_type := .keyword_density
             priority := .low
             suggestion := "Use secondary keywords naturally throughout the content to capture related search queries."
             current_value := some (toString n ++ " secondary keywords identified")
             recommended_value := some "Natural integration of secondary keywords in subheadings and body text"
             impact_score := 50
             is_implemented := false }]
         else []
       | none => [])

/-- `generateReadabilitySuggestions`: one suggestion whose reading-grade
band depends on the difficulty level, plus a word-count suggestion below
300 words. -/
def generateReadabilitySuggestions (outline : ContentOutlineRow) :
    List SuggestionData :=
  let wordCountTarget := outline.word_count_target
  let difficultyLevel := outline.difficulty_level
  let readabilityTarget :=
    match difficultyLevel with
    | .beginner => "Grade 6-8 reading level"
    | .advanced => "Grade 10-12 reading level"
    | .intermediate => "Grade 8-10 reading level"
  [{ content_outline_id := outline.id
     suggestion_type := .readability
     priority := .medium
     suggestion := "Optimize content readability for " ++ difficultyLevel.str ++
       " level audience using short paragraphs, bullet points, and clear language."
     current_value := some ("Target: " ++ difficultyLevel.str ++ " level content")
     recommended_value := some (readabilityTarget ++
       ", short paragraphs (2-3 sentences), bullet points, subheadings every 200-300 words")
     impact_score := 60
     is_implemented := false }] ++
  (if wordCountTarget < 300 then
    [{ content_outline_id := outline.id
       suggestion_type := .readability
       priority := .high
       suggestion := "Increase word count to at least 300 words for better search engine ranking."
       current_value := some (toString wordCountTarget ++ " words")
       recommended_value := some "At least 300-500 words for short content, 1000+ for comprehensive guides"
       impact_score := 75
       is_implemented := false }]
   else [])

/-- The concatenation of the seven rule groups, in evaluation order. -/
def outlineSuggestionList (J : JsonOracle) (outline : ContentOutlineRow) :
    List SuggestionData :=
  generateTitleSuggestions outline ++
  generateMetaDescriptionSuggestions outline ++
  generateHeadingSuggestions J outline ++
  generateInternalLinkingSuggestions outline ++
  generateImageSuggestions outline ++
  generateKeywordDensitySuggestions J outline ++
  generateReadabilitySuggestions outline

/-- Batch insertion of suggestion rows: serial ids, `is_implemented` forced
to `false`, creation timestamp from the database clock. -/
def insertSuggestionRows (now : ℕ) (startId : ℕ) :
    List SuggestionData → List SuggestionRow
  | [] => []
  | d :: ds =>
    { id := startId
      content_outline_id := d.content_outline_id
      suggestion_type := d.suggestion_type
      priority := d.priority
      suggestion := d.suggestion
      current_value := d.current_value
      recommended_value := d.recommended_value
      impact_score := d.impact_score
      is_implemented := false
      created_at := now } :: insertSuggestionRows now (startId + 1) ds

/-- From the unnamed handler part implementing
`generateOptimizationSuggestions`: look up the outline (error when
missing), evaluate the seven rule groups, persist all suggestions with
`is_implemented = false` and return the persisted batch.  Returns
`(returned rows, new suggestions table)`. -/
def generateOptimizationSuggestions (J : JsonOracle) (contentOutlineId : ℕ)
    (now : ℕ) (outlines : List ContentOutlineRow)
    (suggestionsDb : List SuggestionRow) :
    Except String (List SuggestionRow × List SuggestionRow) :=
  match outlines.find? (fun o => o.id == contentOutlineId) with
  | none => .error ("Content outline with id " ++ toString contentOutlineId ++
      " not found")
  | some outline =>
    let suggestions := outlineSuggestionList J outline
    let inserted := insertSuggestionRows now (suggestionsDb.length + 1) suggestions
    .ok (inserted, suggestionsDb ++ inserted)

/-- From the unnamed handler part implementing `updateSuggestionStatus`:
`UPDATE ... SET is_implemented = $flag WHERE id = $id RETURNING *`; the
first returned row (or `null` when none matched) plus the new table
state. -/
def updateSuggestionStatus (suggestionId : ℕ) (isImplemented : Bool)
    (db : List SuggestionRow) : Option SuggestionRow × List SuggestionRow :=
  let updated := db.map (fun r =>
    if r.id == suggestionId then { r with is_implemented := isImplemented }
    else r)
  match updated.filter (fun r => r.id == suggestionId) with
  | [] => (none, updated)
  | r :: _ => (some r, updated)

/-- Partial-update input (`updateContentOutlineInputSchema`): the outer
`Option` is field presence, the inner `Option` of nullable columns is the
SQL null. -/
structure UpdateContentOutlineInput where
  id : ℕ
  title : Option String
  target_keyword : Option String
  secondary_keywords : Option (Option String)
  meta_description : Option (Option String)
  word_count_target : Option ℤ
  outline_structure : Option String
  seo_suggestions : Option (Option String)
  content_type : Option ContentType
  difficulty_level : Option DifficultyLevel
  estimated_reading_time : Option ℤ

/-- The update object of `updateContentOutline`: `updated_at` always set to
the call time, every other column set only when supplied. -/
def applyOutlineUpdate (input : UpdateContentOutlineInput) (now : ℕ)
    (r : ContentOutlineRow) : ContentOutlineRow :=
  { r with
    updated_at := now
    title := input.title.getD r.title
    target_keyword := input.target_keyword.getD r.target_keyword
    secondary_keywords := input.secondary_keywords.getD r.secondary_keywords
    meta_description := input.meta_description.getD r.meta_description
    word_count_target := input.word_count_target.getD r.word_count_target
    outline_structure := input.outline_structure.getD r.outline_structure
    seo_suggestions := input.seo_suggestions.getD r.seo_suggestions
    content_type := input.content_type.getD r.content_type
    difficulty_level := input.difficulty_level.getD r.difficulty_level
    estimated_reading_time :=
      input.estimated_reading_time.getD r.estimated_reading_time }

/-- From `src/server/src/handlers/update_content_outline.ts`,
`updateContentOutline`: verify existence (error when missing), apply the
partial update, return the first updated row and the new table state. -/
def updateContentOutline (input : UpdateContentOutlineInput) (now : ℕ)
    (db : List ContentOutlineRow) :
    Except String (ContentOutlineRow × List ContentOutlineRow) :=
  match db.find? (fun o => o.id == input.id) with
  | none => .error ("Content outline with id " ++ toString input.id ++
      " not found")
  | some _ =>
    let updated := db.map (fun o =>
      if o.id == input.id then applyOutlineUpdate input now o else o)
    match updated.filter (fun o => o.id == input.id) with
    | [] => .error ("Content outline with id " ++ toString input.id ++
        " not found")
    | o :: _ => .ok (o, updated)

/-- A concrete stored outline used to instantiate theorems: title of
length 97 and meta description of length 178. -/
def sampleOutline : ContentOutlineRow :=
  { id := 1
    title := String.mk (List.replicate 97 'a')
    target_keyword := "seo"
    secondary_keywords := none
    meta_description := some (String.mk (List.replicate 178 'b'))
    word_count_target := 1500
    outline_structure := "\x7b\x7d"
    seo_suggestions := none
    content_type := ContentType.guide
    difficulty_level := DifficultyLevel.advanced
    estimated_reading_time := 10
    created_at := 0
    updated_at := 0 }

/-! ## Theorems -/

theorem mem_foldlDedup (l : List String) (acc : List String) (x : String) :
    x ∈ l.foldl (fun acc a => if a ∈ acc then acc else acc ++ [a]) acc ↔
      x ∈ acc ∨ x ∈ l := by
  induction l generalizing acc with
  | nil => simp
  | cons a l ih =>
    simp only [List.foldl_cons]
    rw [ih]
    by_cases h : a ∈ acc
    · simp only [if_pos h, List.mem_cons]
      constructor
      · rintro (hx | hx)
        · exact Or.inl hx
        · exact Or.inr (Or.inr hx)
      · rintro (hx | rfl | hx)
        · exact Or.inl hx
        · exact Or.inl h
        · exact Or.inr hx
    · simp only [if_neg h, List.mem_append, List.mem_cons, List.not_mem_nil,
        or_false]
      constructor
      · rintro ((hx | rfl) | hx)
        · exact Or.inl hx
        · exact Or.inr (Or.inl rfl)
        · exact Or.inr (Or.inr hx)
      · rintro (hx | rfl | hx)
        · exact Or.inl (Or.inl hx)
        · exact Or.inl (Or.inr rfl)
        · exact Or.inr hx

theorem mem_dedupFirst {x : String} {l : List String} :
    x ∈ dedupFirst l ↔ x ∈ l := by
  unfold dedupFirst
  rw [mem_foldlDedup]
  simp

theorem dedupFirst_toFinset (l : List String) :
    (dedupFirst l).toFinset = l.toFinset := by
  ext x
  simp [List.mem_toFinset, mem_dedupFirst]

/-! ### C1: keyword variant generation for multi-word seeds -/

/-- C1 counterexample: for the two-word seed `"a b"`, the spec-claimed set
contains the seed with its last word dropped (`"a"`), but the code's output
never contains it — the in-place `reverse()` makes the final variant the
reversed words minus their last element (`"b"`). -/
theorem generateKeywordVariations_claim_cex :
    "a" ∈ claimedVariations "a b" ∧
      "a" ∉ generateKeywordVariations "a b" true := by
  decide

/-- C1 (amended): for every seed with more than one space-delimited word,
the Keyword Variant Generator with include_related = true returns exactly
the set consisting of the seed, the ten fixed templated expansions, the
seed's words in reversed order, and the reversed words with their last
element dropped (equivalently: the seed minus its first word, reversed),
with duplicates collapsed by set semantics. -/
theorem generateKeywordVariations_multiword (seedKeyword : String)
    (h : 1 < (splitOnSpace seedKeyword).length) :
    (generateKeywordVariations seedKeyword true).toFinset =
      (seedKeyword :: baseVariations seedKeyword ++
        [joinSpace (splitOnSpace seedKeyword).reverse,
         joinSpace ((splitOnSpace seedKeyword).reverse.dropLast)]).toFinset := by
  have hlen : ((splitOnSpace seedKeyword).reverse).length > 1 := by
    simpa using h
  simp only [generateKeywordVariations, if_pos hlen, if_true]
  rw [dedupFirst_toFinset]
  simp

/-- Witness for `generateKeywordVariations_multiword` at the concrete seed
`"digital marketing"`. -/
theorem generateKeywordVariations_multiword_witness :
    1 < (splitOnSpace "digital marketing").length ∧
    (generateKeywordVariations "digital marketing" true).toFinset =
      ("digital marketing" :: baseVariations "digital marketing" ++
        [joinSpace (splitOnSpace "digital marketing").reverse,
         joinSpace ((splitOnSpace "digital marketing").reverse.dropLast)]).toFinset :=
  ⟨by decide, generateKeywordVariations_multiword "digital marketing" (by decide)⟩

/-! ### C4: metric bounds and the competition tier -/

/-- C4 counterexample: with the difficulty draw `0.7501` the clamped
difficulty is `70.004`, so the code assigns tier `high`, but the produced
(2-decimal rounded) difficulty is exactly `70`, which under the stated
thresholds would require tier `medium`. -/
theorem generateKeywordData_tier_cex :
    (generateKeywordData "seo" "seo"
        ⟨0, 0, 7501/10000, 0, fun _ => 0⟩).competition = Competition.high ∧
    ¬ (70 < (generateKeywordData "seo" "seo"
        ⟨0, 0, 7501/10000, 0, fun _ => 0⟩).difficulty) := by
  constructor
  · simp only [generateKeywordData, rawDifficulty]
    norm_num [min_def, max_def]
  · simp only [generateKeywordData, rawDifficulty]
    norm_num [min_def, max_def, round_eq]

theorem rawDifficulty_bounds (keyword seedKeyword : String) (r : ℚ) :
    5 ≤ rawDifficulty keyword seedKeyword r ∧
      rawDifficulty keyword seedKeyword r ≤ 100 := by
  unfold rawDifficulty
  constructor
  · exact le_min (by norm_num) (le_max_left _ _)
  · exact min_le_left _ _

/-- C4 (amended): the synthesized difficulty lies in `[5, 100]` and the cpc
is non-negative; the competition tier is derived from the clamped difficulty
*before* the 2-decimal rounding, by the stated thresholds (high above 70,
medium above 40, low otherwise). -/
theorem generateKeywordData_metrics (keyword seedKeyword : String) (ρ : Rand9)
    (h : ρ.Bounded) :
    5 ≤ (generateKeywordData keyword seedKeyword ρ).difficulty ∧
    (generateKeywordData keyword seedKeyword ρ).difficulty ≤ 100 ∧
    0 ≤ (generateKeywordData keyword seedKeyword ρ).cpc ∧
    (generateKeywordData keyword seedKeyword ρ).competition =
      (if 70 < rawDifficulty keyword seedKeyword ρ.rDiff then Competition.high
       else if 40 < rawDifficulty keyword seedKeyword ρ.rDiff then
         Competition.medium
       else Competition.low) := by
  obtain ⟨hraw5, hraw100⟩ := rawDifficulty_bounds keyword seedKeyword ρ.rDiff
  obtain ⟨-, -, -, ⟨hc0, -⟩, -⟩ := h
  refine ⟨?_, ?_, ?_, ?_⟩
  · show (5 : ℚ) ≤ (round (rawDifficulty keyword seedKeyword ρ.rDiff * 100) : ℤ) / 100
    have h500 : (500 : ℤ) ≤ round (rawDifficulty keyword seedKeyword ρ.rDiff * 100) := by
      rw [round_eq, Int.le_floor]
      push_cast
      linarith
    rw [le_div_iff₀ (by norm_num : (0:ℚ) < 100)]
    calc (5 : ℚ) * 100 = ((500 : ℤ) : ℚ) := by norm_num
    _ ≤ _ := by exact_mod_cast h500
  · show (round (rawDifficulty keyword seedKeyword ρ.rDiff * 100) : ℤ) / 100 ≤ (100 : ℚ)
    have h10000 : round (rawDifficulty keyword seedKeyword ρ.rDiff * 100) ≤ 10000 := by
      have : round (rawDifficulty keyword seedKeyword ρ.rDiff * 100) < 10001 := by
        rw [round_eq, Int.floor_lt]
        push_cast
        linarith
      omega
    rw [div_le_iff₀ (by norm_num : (0:ℚ) < 100)]
    calc ((round (rawDifficulty keyword seedKeyword ρ.rDiff * 100) : ℤ) : ℚ)
        ≤ ((10000 : ℤ) : ℚ) := by exact_mod_cast h10000
    _ = 100 * 100 := by norm_num
  · show (0 : ℚ) ≤ (round (((if commercialKeywords.any
        (fun word => strContains (strToLower keyword) word) then (7:ℚ)/2 else 6/5) +
          ρ.rCpc * 2) * 100) : ℤ) / 100
    have hbase : (0 : ℚ) ≤ (if commercialKeywords.any
        (fun word => strContains (strToLower keyword) word) then (7:ℚ)/2 else 6/5) := by
      split <;> norm_num
    have hinner : (0 : ℚ) ≤ ((if commercialKeywords.any
        (fun word => strContains (strToLower keyword) word) then (7:ℚ)/2 else 6/5) +
          ρ.rCpc * 2) * 100 := by
      have : (0:ℚ) ≤ ρ.rCpc * 2 := by linarith
      nlinarith
    have hr : (0 : ℤ) ≤ round (((if commercialKeywords.any
        (fun word => strContains (strToLower keyword) word) then (7:ℚ)/2 else 6/5) +
          ρ.rCpc * 2) * 100) := by
      rw [round_eq, Int.le_floor]
      push_cast
      linarith
    positivity
  · rfl

/-- Witness for `generateKeywordData_metrics` at a concrete input. -/
theorem generateKeywordData_metrics_witness :
    (Rand9.Bounded ⟨0, 0, 0, 0, fun _ => 0⟩) ∧
    5 ≤ (generateKeywordData "seo" "seo" ⟨0, 0, 0, 0, fun _ => 0⟩).difficulty ∧
    (generateKeywordData "seo" "seo" ⟨0, 0, 0, 0, fun _ => 0⟩).difficulty ≤ 100 ∧
    0 ≤ (generateKeywordData "seo" "seo" ⟨0, 0, 0, 0, fun _ => 0⟩).cpc ∧
    (generateKeywordData "seo" "seo" ⟨0, 0, 0, 0, fun _ => 0⟩).competition =
      (if 70 < rawDifficulty "seo" "seo" (0:ℚ) then Competition.high
       else if 40 < rawDifficulty "seo" "seo" (0:ℚ) then Competition.medium
       else Competition.low) :=
  have hb : Rand9.Bounded ⟨0, 0, 0, 0, fun _ => 0⟩ := by
    refine ⟨⟨le_refl 0, ?_⟩, ⟨le_refl 0, ?_⟩, ⟨le_refl 0, ?_⟩, ⟨le_refl 0, ?_⟩,
      fun i => ⟨le_refl 0, ?_⟩⟩ <;> norm_num
  ⟨hb, generateKeywordData_metrics "seo" "seo" ⟨0, 0, 0, 0, fun _ => 0⟩ hb⟩

/-! ### Lemmas about the keyword research orchestrator -/

theorem generateKeywordData_keyword (kw seed : String) (ρ : Rand9) :
    (generateKeywordData kw seed ρ).keyword = kw := rfl

theorem generateKeywordData_volume_nonneg (kw seed : String) (ρ : Rand9)
    (h : ρ.Bounded) : 0 ≤ (generateKeywordData kw seed ρ).search_volume := by
  obtain ⟨⟨hv0, -⟩, ⟨hs0, -⟩, -⟩ := h
  have hbase : (0:ℤ) ≤ (if kw = seed then (10000:ℤ) else ⌊ρ.rVol * 8000⌋ + 1000) := by
    split
    · norm_num
    · have : (0:ℤ) ≤ ⌊ρ.rVol * 8000⌋ := Int.floor_nonneg.mpr (by positivity)
      omega
  have hfac : (0:ℚ) ≤ 1/2 + ρ.rScale * (1/2) := by linarith
  simp only [generateKeywordData]
  exact Int.floor_nonneg.mpr (mul_nonneg (by exact_mod_cast hbase) hfac)

theorem generateKeywordData_difficulty_le_100 (kw seed : String) (ρ : Rand9) :
    (generateKeywordData kw seed ρ).difficulty ≤ 100 := by
  have h100 := (rawDifficulty_bounds kw seed ρ.rDiff).2
  show ((round (rawDifficulty kw seed ρ.rDiff * 100) : ℤ) : ℚ) / 100 ≤ 100
  have h10000 : round (rawDifficulty kw seed ρ.rDiff * 100) ≤ 10000 := by
    have : round (rawDifficulty kw seed ρ.rDiff * 100) < 10001 := by
      rw [round_eq, Int.floor_lt]
      push_cast
      linarith
    omega
  rw [div_le_iff₀ (by norm_num : (0:ℚ) < 100)]
  calc ((round (rawDifficulty kw seed ρ.rDiff * 100) : ℤ) : ℚ)
      ≤ ((10000 : ℤ) : ℚ) := by exact_mod_cast h10000
  _ = 100 * 100 := by norm_num

theorem researchCandidates_default (input : KeywordResearchInput)
    (ρ : ℕ → Rand9) (hmin : input.min_search_volume = 0)
    (hmax : input.max_difficulty = 100) (hρ : ∀ i, (ρ i).Bounded) :
    researchCandidates input ρ =
      (generateKeywordVariations input.seed_keyword
        input.include_related).enum.map
        (fun p => generateKeywordData p.2 input.seed_keyword (ρ p.1)) := by
  unfold researchCandidates
  apply List.filter_eq_self.mpr
  intro d hd
  obtain ⟨p, hp, rfl⟩ := List.mem_map.mp hd
  rw [hmin, hmax]
  simp only [Bool.and_eq_true, decide_eq_true_eq]
  exact ⟨generateKeywordData_volume_nonneg _ _ _ (hρ p.1),
         generateKeywordData_difficulty_le_100 _ _ _⟩

theorem researchCandidates_keywords (input : KeywordResearchInput)
    (ρ : ℕ → Rand9) (hmin : input.min_search_volume = 0)
    (hmax : input.max_difficulty = 100) (hρ : ∀ i, (ρ i).Bounded) :
    (researchCandidates input ρ).map (fun d => d.keyword) =
      generateKeywordVariations input.seed_keyword input.include_related := by
  rw [researchCandidates_default input ρ hmin hmax hρ, List.map_map]
  have : ((fun d : KeywordData => d.keyword) ∘
      fun p : ℕ × String => generateKeywordData p.2 input.seed_keyword (ρ p.1)) =
      Prod.snd := by
    funext p
    rfl
  rw [this, List.enum_map_snd]

theorem researchFold_ret_keywords (datas : List KeywordData)
    (db acc : List KeywordRow) :
    ((datas.foldl researchStep (db, acc)).2).map (fun r => r.keyword) =
      acc.map (fun r => r.keyword) ++ datas.map (fun d => d.keyword) := by
  induction datas generalizing db acc with
  | nil => simp
  | cons d ds ih =>
    simp only [List.foldl_cons, List.map_cons]
    cases hf : db.find? (fun r => r.keyword == d.keyword) with
    | none =>
      simp only [researchStep, hf]
      rw [ih]
      simp [keywordRowOfData]
    | some r =>
      have hr : r.keyword = d.keyword := by
        simpa using List.find?_some hf
      simp only [researchStep, hf]
      rw [ih]
      simp [hr]

theorem researchFold_db_mono (datas : List KeywordData)
    (db acc : List KeywordRow) (r : KeywordRow) (hr : r ∈ db) :
    r ∈ (datas.foldl researchStep (db, acc)).1 := by
  induction datas generalizing db acc with
  | nil => exact hr
  | cons d ds ih =>
    simp only [List.foldl_cons]
    cases hf : db.find? (fun x => x.keyword == d.keyword) with
    | some x =>
      simp only [researchStep, hf]
      exact ih _ _ hr
    | none =>
      simp only [researchStep, hf]
      exact ih _ _ (List.mem_append_left _ hr)

theorem researchFold_mem_keyword (datas : List KeywordData)
    (db acc : List KeywordRow) (d : KeywordData) (hd : d ∈ datas) :
    ∃ r ∈ (datas.foldl researchStep (db, acc)).1, r.keyword = d.keyword := by
  induction datas generalizing db acc with
  | nil => cases hd
  | cons a ds ih =>
    simp only [List.foldl_cons]
    rcases List.mem_cons.mp hd with rfl | hd'
    · cases hf : db.find? (fun x => x.keyword == d.keyword) with
      | some x =>
        have hx : x ∈ db := List.mem_of_find?_eq_some hf
        have hkx : x.keyword = d.keyword := by
          simpa using List.find?_some hf
        refine ⟨x, ?_, hkx⟩
        simp only [researchStep, hf]
        exact researchFold_db_mono ds _ _ x hx
      | none =>
        refine ⟨keywordRowOfData (db.length + 1) d, ?_, rfl⟩
        simp only [researchStep, hf]
        exact researchFold_db_mono ds _ _ _
          (List.mem_append_right _ (List.mem_singleton_self _))
    · cases hf : db.find? (fun x => x.keyword == a.keyword) with
      | some x =>
        simp only [researchStep, hf]
        exact ih _ _ hd'
      | none =>
        simp only [researchStep, hf]
        exact ih _ _ hd'

theorem researchFold_db_of_found (datas : List KeywordData)
    (db : List KeywordRow)
    (h : ∀ d ∈ datas, ∃ r ∈ db, r.keyword = d.keyword) :
    ∀ acc, (datas.foldl researchStep (db, acc)).1 = db := by
  induction datas with
  | nil => intro acc; rfl
  | cons d ds ih =>
    intro acc
    obtain ⟨r, hrdb, hrk⟩ := h d (List.mem_cons_self d ds)
    have hsome : (db.find? (fun x => x.keyword == d.keyword)).isSome := by
      rw [List.find?_isSome]
      exact ⟨r, hrdb, by simp [hrk]⟩
    cases hf : db.find? (fun x => x.keyword == d.keyword) with
    | none =>
      rw [hf] at hsome
      simp at hsome
    | some x =>
      simp only [List.foldl_cons, researchStep, hf]
      exact ih (fun d' hd' => h d' (List.mem_cons_of_mem _ hd')) _

/-- Shared content of C10 (and the second-call analysis of C2): with the
schema defaults, the filter removes no candidate, and the returned rows are
in bijection with the generated variations (equal keyword lists). -/
theorem performKeywordResearch_ret_keywords (input : KeywordResearchInput)
    (ρ : ℕ → Rand9) (db : List KeywordRow)
    (hmin : input.min_search_volume = 0) (hmax : input.max_difficulty = 100)
    (hρ : ∀ i, (ρ i).Bounded) :
    ((performKeywordResearch input ρ db).1).map (fun r => r.keyword) =
      generateKeywordVariations input.seed_keyword input.include_related := by
  unfold performKeywordResearch
  rw [researchFold_ret_keywords]
  simp only [List.map_nil, List.nil_append]
  exact researchCandidates_keywords input ρ hmin hmax hρ

/-- C10: when min_search_volume is 0 and max_difficulty is 100 (the schema
defaults), the threshold filter removes no candidate: every generated
variant produces a returned Keyword entity (the returned rows' keywords are
exactly the generated variations, in order). -/
theorem performKeywordResearch_no_filtering (input : KeywordResearchInput)
    (ρ : ℕ → Rand9) (db : List KeywordRow)
    (hmin : input.min_search_volume = 0) (hmax : input.max_difficulty = 100)
    (hρ : ∀ i, (ρ i).Bounded) :
    researchCandidates input ρ =
      (generateKeywordVariations input.seed_keyword
        input.include_related).enum.map
        (fun p => generateKeywordData p.2 input.seed_keyword (ρ p.1)) ∧
    ((performKeywordResearch input ρ db).1).map (fun r => r.keyword) =
      generateKeywordVariations input.seed_keyword input.include_related :=
  ⟨researchCandidates_default input ρ hmin hmax hρ,
   performKeywordResearch_ret_keywords input ρ db hmin hmax hρ⟩

/-- Witness for `performKeywordResearch_no_filtering` at a concrete input. -/
theorem performKeywordResearch_no_filtering_witness :
    (researchCandidates ⟨"seo", none, "en", true, 0, 100⟩ (fun _ => ⟨0, 0, 0, 0, fun _ => 0⟩) =
      (generateKeywordVariations "seo" true).enum.map
        (fun p => generateKeywordData p.2 "seo" ((fun _ : ℕ => (⟨0, 0, 0, 0, fun _ => 0⟩ : Rand9)) p.1))) ∧
    ((performKeywordResearch ⟨"seo", none, "en", true, 0, 100⟩
        (fun _ => ⟨0, 0, 0, 0, fun _ => 0⟩) []).1).map (fun r => r.keyword) =
      generateKeywordVariations "seo" true :=
  performKeywordResearch_no_filtering ⟨"seo", none, "en", true, 0, 100⟩
    (fun _ => ⟨0, 0, 0, 0, fun _ => 0⟩) [] rfl rfl
    (fun _ => ⟨⟨le_refl 0, by norm_num⟩, ⟨le_refl 0, by norm_num⟩,
      ⟨le_refl 0, by norm_num⟩, ⟨le_refl 0, by norm_num⟩,
      fun _ => ⟨le_refl 0, by norm_num⟩⟩)

/-- C2 counterexample: with `min_search_volume = 6000`, the seed candidate
is filtered out on a first call whose volume-scale draw is `0` (volume
`⌊10000·0.5⌋ = 5000`), but passes on a second call whose draw is `0.9`
(volume `9500`), so the second call inserts a row: the stored row count
changes on the second call with identical input. -/
theorem performKeywordResearch_idem_cex :
    (performKeywordResearch ⟨"k", none, "en", false, 6000, 100⟩
        (fun _ => ⟨9/10, 9/10, 9/10, 9/10, fun _ => 0⟩)
        (performKeywordResearch ⟨"k", none, "en", false, 6000, 100⟩
          (fun _ => ⟨0, 0, 0, 0, fun _ => 0⟩) []).2).2.length ≠
      (performKeywordResearch ⟨"k", none, "en", false, 6000, 100⟩
        (fun _ => ⟨0, 0, 0, 0, fun _ => 0⟩) []).2.length := by
  have e1 : (performKeywordResearch ⟨"k", none, "en", false, 6000, 100⟩
      (fun _ => ⟨0, 0, 0, 0, fun _ => 0⟩) []) = ([], []) := by
    norm_num [performKeywordResearch, researchCandidates,
      generateKeywordVariations, dedupFirst, splitOnSpace, splitOnSpaceAux,
      baseVariations, joinSpace, generateKeywordData, rawDifficulty,
      List.enum, List.enumFrom, min_def, max_def, round_eq]
  rw [e1]
  have e2 : (performKeywordResearch ⟨"k", none, "en", false, 6000, 100⟩
      (fun _ => ⟨9/10, 9/10, 9/10, 9/10, fun _ => 0⟩) []).2.length = 1 := by
    norm_num [performKeywordResearch, researchCandidates,
      generateKeywordVariations, dedupFirst, splitOnSpace, splitOnSpaceAux,
      baseVariations, joinSpace, generateKeywordData, rawDifficulty,
      researchStep, keywordRowOfData, List.enum, List.enumFrom,
      min_def, max_def, round_eq]
  simp only []
  rw [e2]
  norm_num

/-- C2 (amended): with the schema-default thresholds (min_search_volume 0,
max_difficulty 100), running the Keyword Research Orchestrator twice with
identical input yields no net change in the stored keyword row count on the
second call, and the set of keyword strings returned by the second call
equals the set returned by the first call. -/
theorem performKeywordResearch_idempotent (input : KeywordResearchInput)
    (ρ₁ ρ₂ : ℕ → Rand9) (db : List KeywordRow)
    (hmin : input.min_search_volume = 0) (hmax : input.max_difficulty = 100)
    (hρ₁ : ∀ i, (ρ₁ i).Bounded) (hρ₂ : ∀ i, (ρ₂ i).Bounded) :
    (performKeywordResearch input ρ₂
        (performKeywordResearch input ρ₁ db).2).2.length =
      (performKeywordResearch input ρ₁ db).2.length ∧
    ((performKeywordResearch input ρ₂
        (performKeywordResearch input ρ₁ db).2).1.map
          (fun r => r.keyword)).toFinset =
      ((performKeywordResearch input ρ₁ db).1.map
          (fun r => r.keyword)).toFinset := by
  have hdb1 : (performKeywordResearch input ρ₁ db).2 =
      ((researchCandidates input ρ₁).foldl researchStep (db, [])).1 := rfl
  have hfound : ∀ d ∈ researchCandidates input ρ₂,
      ∃ r ∈ (performKeywordResearch input ρ₁ db).2, r.keyword = d.keyword := by
    intro d hd
    have hk2 : d.keyword ∈
        generateKeywordVariations input.seed_keyword input.include_related := by
      rw [← researchCandidates_keywords input ρ₂ hmin hmax hρ₂]
      exact List.mem_map_of_mem _ hd
    rw [← researchCandidates_keywords input ρ₁ hmin hmax hρ₁] at hk2
    obtain ⟨d₁, hd₁, hkeq⟩ := List.mem_map.mp hk2
    obtain ⟨r, hr, hrk⟩ :=
      researchFold_mem_keyword (researchCandidates input ρ₁) db [] d₁ hd₁
    refine ⟨r, ?_, by rw [hrk, hkeq]⟩
    rw [hdb1]
    exact hr
  have hdb2 : (performKeywordResearch input ρ₂
      (performKeywordResearch input ρ₁ db).2).2 =
      (performKeywordResearch input ρ₁ db).2 := by
    show ((researchCandidates input ρ₂).foldl researchStep
      ((performKeywordResearch input ρ₁ db).2, [])).1 = _
    exact researchFold_db_of_found _ _ hfound []
  refine ⟨by rw [hdb2], ?_⟩
  rw [performKeywordResearch_ret_keywords input ρ₂ _ hmin hmax hρ₂,
      performKeywordResearch_ret_keywords input ρ₁ db hmin hmax hρ₁]

/-- Witness for `performKeywordResearch_idempotent` at a concrete input. -/
theorem performKeywordResearch_idempotent_witness :
    (performKeywordResearch ⟨"seo", none, "en", true, 0, 100⟩
        (fun _ => ⟨0, 0, 0, 0, fun _ => 0⟩)
        (performKeywordResearch ⟨"seo", none, "en", true, 0, 100⟩
          (fun _ => ⟨0, 0, 0, 0, fun _ => 0⟩) []).2).2.length =
      (performKeywordResearch ⟨"seo", none, "en", true, 0, 100⟩
        (fun _ => ⟨0, 0, 0, 0, fun _ => 0⟩) []).2.length ∧
    ((performKeywordResearch ⟨"seo", none, "en", true, 0, 100⟩
        (fun _ => ⟨0, 0, 0, 0, fun _ => 0⟩)
        (performKeywordResearch ⟨"seo", none, "en", true, 0, 100⟩
          (fun _ => ⟨0, 0, 0, 0, fun _ => 0⟩) []).2).1.map
          (fun r => r.keyword)).toFinset =
      ((performKeywordResearch ⟨"seo", none, "en", true, 0, 100⟩
        (fun _ => ⟨0, 0, 0, 0, fun _ => 0⟩) []).1.map
          (fun r => r.keyword)).toFinset :=
  performKeywordResearch_idempotent ⟨"seo", none, "en", true, 0, 100⟩
    (fun _ => ⟨0, 0, 0, 0, fun _ => 0⟩) (fun _ => ⟨0, 0, 0, 0, fun _ => 0⟩) []
    rfl rfl
    (fun _ => ⟨⟨le_refl 0, by norm_num⟩, ⟨le_refl 0, by norm_num⟩,
      ⟨le_refl 0, by norm_num⟩, ⟨le_refl 0, by norm_num⟩,
      fun _ => ⟨le_refl 0, by norm_num⟩⟩)
    (fun _ => ⟨⟨le_refl 0, by norm_num⟩, ⟨le_refl 0, by norm_num⟩,
      ⟨le_refl 0, by norm_num⟩, ⟨le_refl 0, by norm_num⟩,
      fun _ => ⟨le_refl 0, by norm_num⟩⟩)

/-! ### Lemmas about the competitor analysis orchestrator -/

theorem assignCompetitorIds_length (s : ℕ) (l : List CompetitorRow) :
    (assignCompetitorIds s l).length = l.length := by
  induction l generalizing s with
  | nil => rfl
  | cons r rs ih => simp [assignCompetitorIds, ih]

theorem assignCompetitorIds_map_rank (s : ℕ) (l : List CompetitorRow) :
    (assignCompetitorIds s l).map (fun r => r.ranking_position) =
      l.map (fun r => r.ranking_position) := by
  induction l generalizing s with
  | nil => rfl
  | cons r rs ih => simp [assignCompetitorIds, ih]

theorem assignCompetitorIds_map_tk (s : ℕ) (l : List CompetitorRow) :
    (assignCompetitorIds s l).map (fun r => r.target_keyword) =
      l.map (fun r => r.target_keyword) := by
  induction l generalizing s with
  | nil => rfl
  | cons r rs ih => simp [assignCompetitorIds, ih]

theorem insertByRank_of_le (r : CompetitorRow) (l : List CompetitorRow)
    (h : ∀ x ∈ l, r.ranking_position ≤ x.ranking_position) :
    insertByRank r l = r :: l := by
  cases l with
  | nil => rfl
  | cons x xs =>
    simp only [insertByRank]
    rw [if_pos (h x (List.mem_cons_self x xs))]

theorem sortByRank_eq_self (l : List CompetitorRow)
    (h : l.Pairwise (fun a b => a.ranking_position ≤ b.ranking_position)) :
    sortByRank l = l := by
  induction l with
  | nil => rfl
  | cons x xs ih =>
    obtain ⟨hx, hxs⟩ := List.pairwise_cons.mp h
    rw [sortByRank, ih hxs]
    exact insertByRank_of_le x xs hx

/-- C3: for every target_keyword with no stored competitor rows, the first
call with limit L generates, persists, and returns exactly min(L, 10) rows
whose ranking positions are the contiguous ascending sequence 1..min(L, 10);
any subsequent call with the same input returns exactly the previously
stored rows unchanged and leaves the table unchanged (no generation). -/
theorem performCompetitorAnalysis_cache (input : CompetitorAnalysisInput)
    (ρ₁ ρ₂ : ℕ → Rand3) (db : List CompetitorRow)
    (hfresh : db.filter (fun r => r.target_keyword == input.target_keyword) = [])
    (hlim : 1 ≤ input.limit) :
    (performCompetitorAnalysis input ρ₁ db).1.length = min input.limit 10 ∧
    (performCompetitorAnalysis input ρ₁ db).1.map (fun r => r.ranking_position) =
      (List.range (min input.limit 10)).map (fun i => i + 1) ∧
    (performCompetitorAnalysis input ρ₁ db).2 =
      db ++ (performCompetitorAnalysis input ρ₁ db).1 ∧
    performCompetitorAnalysis input ρ₂ (performCompetitorAnalysis input ρ₁ db).2 =
      ((performCompetitorAnalysis input ρ₁ db).1,
        (performCompetitorAnalysis input ρ₁ db).2) := by
  have hdlen : competitorDomains.length = 10 := rfl
  set n := min input.limit 10 with hn
  have hn1 : 1 ≤ n := le_min hlim (by norm_num)
  set mock := (List.range n).map
    (fun i => mkMockCompetitor input.target_keyword i (ρ₁ i)) with hmock
  have hmocklen : mock.length = n := by simp [hmock]
  set inserted := assignCompetitorIds (db.length + 1) mock with hins
  have hinslen : inserted.length = n := by
    rw [hins, assignCompetitorIds_length, hmocklen]
  have e1 : performCompetitorAnalysis input ρ₁ db = (inserted, db ++ inserted) := by
    simp only [performCompetitorAnalysis, hfresh]
    rw [if_neg (by simp [sortByRank]), hdlen, ← hn, ← hmock, ← hins,
      if_pos (by omega)]
  have hrank : inserted.map (fun r => r.ranking_position) =
      (List.range n).map (fun i => i + 1) := by
    rw [hins, assignCompetitorIds_map_rank, hmock, List.map_map]
    rfl
  have htk : ∀ r ∈ inserted, r.target_keyword = input.target_keyword := by
    intro r hr
    have hmem : r.target_keyword ∈ (assignCompetitorIds (db.length + 1) mock).map
        (fun r => r.target_keyword) := by
      rw [← hins]
      exact List.mem_map_of_mem _ hr
    rw [assignCompetitorIds_map_tk, hmock, List.map_map] at hmem
    obtain ⟨i, -, hi⟩ := List.mem_map.mp hmem
    exact hi.symm
  have hpair : inserted.Pairwise
      (fun a b => a.ranking_position ≤ b.ranking_position) := by
    have h1 : (inserted.map (fun r => r.ranking_position)).Pairwise (· ≤ ·) := by
      rw [hrank]
      exact (List.pairwise_lt_range n).map _ (fun a b hab => by omega)
    exact (List.pairwise_map.mp h1)
  have e2 : performCompetitorAnalysis input ρ₂ (db ++ inserted) =
      (inserted, db ++ inserted) := by
    have hfil : (db ++ inserted).filter
        (fun r => r.target_keyword == input.target_keyword) = inserted := by
      rw [List.filter_append, hfresh, List.nil_append]
      apply List.filter_eq_self.mpr
      intro r hr
      simp [htk r hr]
    simp only [performCompetitorAnalysis, hfil]
    rw [sortByRank_eq_self inserted hpair,
      List.take_of_length_le (by omega), if_pos (by omega)]
  refine ⟨?_, ?_, ?_, ?_⟩
  · rw [e1]
    exact hinslen
  · rw [e1]
    exact hrank
  · rw [e1]
  · rw [e1]
    exact e2

/-- Witness for `performCompetitorAnalysis_cache` at a concrete input. -/
theorem performCompetitorAnalysis_cache_witness :
    (performCompetitorAnalysis ⟨"seo", none, 2⟩ (fun _ => ⟨0, 0, 0⟩) []).1.length =
      min 2 10 ∧
    performCompetitorAnalysis ⟨"seo", none, 2⟩ (fun _ => ⟨0, 0, 0⟩)
        (performCompetitorAnalysis ⟨"seo", none, 2⟩ (fun _ => ⟨0, 0, 0⟩) []).2 =
      ((performCompetitorAnalysis ⟨"seo", none, 2⟩ (fun _ => ⟨0, 0, 0⟩) []).1,
        (performCompetitorAnalysis ⟨"seo", none, 2⟩ (fun _ => ⟨0, 0, 0⟩) []).2) :=
  have h := performCompetitorAnalysis_cache ⟨"seo", none, 2⟩
    (fun _ => ⟨0, 0, 0⟩) (fun _ => ⟨0, 0, 0⟩) [] rfl (by norm_num)
  ⟨h.1, h.2.2.2⟩

/-! ### C5: guide outlines -/

/-- C5: for content_type = "guide", every outline produced by the Outline
Template Engine has word_count_target in [1500, 4000], difficulty_level
"advanced", and estimated_reading_time = ⌈word_count_target / (200/3.5)⌉. -/
theorem generateOutlineSuggestions_guide (targetKeyword : String) (r : ℚ)
    (h0 : 0 ≤ r) (h1 : r < 1) :
    ∃ o, generateOutlineSuggestions targetKeyword "guide" r = some o ∧
      1500 ≤ o.word_count_target ∧ o.word_count_target ≤ 4000 ∧
      o.difficulty_level = DifficultyLevel.advanced ∧
      o.estimated_reading_time =
        ⌈(o.word_count_target : ℚ) / (200 / (7/2))⌉ := by
  have hlow : (1500:ℤ) ≤ ⌊r * ((4000:ℚ) - 1500) + 1500⌋ := by
    rw [Int.le_floor]
    push_cast
    nlinarith
  have hhigh : ⌊r * ((4000:ℚ) - 1500) + 1500⌋ ≤ 4000 := by
    have : ⌊r * ((4000:ℚ) - 1500) + 1500⌋ < 4000 := by
      rw [Int.floor_lt]
      push_cast
      nlinarith
    omega
  refine ⟨_, rfl, ?_, ?_, ?_, ?_⟩
  · exact hlow
  · exact hhigh
  · show (if ContentType.guide = ContentType.blog_post ∨
        ⌊r * (((4000:ℤ):ℚ) - ((1500:ℤ):ℚ)) + ((1500:ℤ):ℚ)⌋ < 1200 then
        DifficultyLevel.beginner
      else if ContentType.guide = ContentType.guide ∨
          ContentType.guide = ContentType.tutorial ∨
          ⌊r * (((4000:ℤ):ℚ) - ((1500:ℤ):ℚ)) + ((1500:ℤ):ℚ)⌋ > 2500 then
        DifficultyLevel.advanced
      else DifficultyLevel.intermediate) = DifficultyLevel.advanced
    rw [if_neg, if_pos (Or.inl rfl)]
    push_cast
    push_cast at hlow
    rintro (h | h)
    · exact h
    · omega
  · rfl

/-- Witness for `generateOutlineSuggestions_guide` at a concrete input. -/
theorem generateOutlineSuggestions_guide_witness :
    (0:ℚ) ≤ 0 ∧ (0:ℚ) < 1 ∧
    ∃ o, generateOutlineSuggestions "seo" "guide" 0 = some o ∧
      1500 ≤ o.word_count_target ∧ o.word_count_target ≤ 4000 ∧
      o.difficulty_level = DifficultyLevel.advanced ∧
      o.estimated_reading_time =
        ⌈(o.word_count_target : ℚ) / (200 / (7/2))⌉ :=
  ⟨le_refl 0, by norm_num,
    generateOutlineSuggestions_guide "seo" 0 (le_refl 0) (by norm_num)⟩

/-! ### Lemmas about the optimization rule engine -/

theorem insertSuggestionRows_length (now s : ℕ) (ds : List SuggestionData) :
    (insertSuggestionRows now s ds).length = ds.length := by
  induction ds generalizing s with
  | nil => rfl
  | cons d ds ih => simp [insertSuggestionRows, ih]

theorem insertSuggestionRows_implemented (now s : ℕ) (ds : List SuggestionData) :
    ∀ r ∈ insertSuggestionRows now s ds, r.is_implemented = false := by
  induction ds generalizing s with
  | nil =>
    intro r hr
    cases hr
  | cons d ds ih =>
    intro r hr
    rcases List.mem_cons.mp hr with rfl | hr'
    · rfl
    · exact ih _ r hr'

theorem insertSuggestionRows_mem (now s : ℕ) (ds : List SuggestionData)
    (d : SuggestionData) (hd : d ∈ ds) :
    ∃ r ∈ insertSuggestionRows now s ds,
      r.suggestion_type = d.suggestion_type ∧ r.priority = d.priority ∧
        r.impact_score = d.impact_score := by
  induction ds generalizing s with
  | nil => cases hd
  | cons a ds ih =>
    rcases List.mem_cons.mp hd with rfl | hd'
    · exact ⟨_, List.mem_cons_self _ _, rfl, rfl, rfl⟩
    · obtain ⟨r, hr, hp⟩ := ih (s + 1) hd'
      exact ⟨r, List.mem_cons_of_mem _ hr, hp⟩

theorem generateHeadingSuggestions_one (J : JsonOracle)
    (outline : ContentOutlineRow) :
    (generateHeadingSuggestions J outline).length = 1 := by
  unfold generateHeadingSuggestions
  cases hp : J.parseOk (if outline.outline_structure = "" then "\x7b\x7d"
      else outline.outline_structure) <;> simp [hp]

theorem generateKeywordDensitySuggestions_le (J : JsonOracle)
    (outline : ContentOutlineRow) :
    1 ≤ (generateKeywordDensitySuggestions J outline).length := by
  simp only [generateKeywordDensitySuggestions, List.length_append,
    List.length_cons, List.length_nil]
  omega

theorem generateReadabilitySuggestions_le (outline : ContentOutlineRow) :
    1 ≤ (generateReadabilitySuggestions outline).length := by
  simp only [generateReadabilitySuggestions, List.length_append,
    List.length_cons, List.length_nil]
  omega

/-- C9: for every existing content outline, the Optimization Rule Engine
persists and returns at least five suggestions (headings, internal_links,
images, keyword_density and readability each emit unconditionally), and
every persisted suggestion has is_implemented = false. -/
theorem generateOptimizationSuggestions_batch (J : JsonOracle)
    (oid now : ℕ) (outlines : List ContentOutlineRow)
    (suggestionsDb : List SuggestionRow) (outline : ContentOutlineRow)
    (hfind : outlines.find? (fun o => o.id == oid) = some outline) :
    ∃ ret db',
      generateOptimizationSuggestions J oid now outlines suggestionsDb =
        .ok (ret, db') ∧
      5 ≤ ret.length ∧ db' = suggestionsDb ++ ret ∧
      ∀ s ∈ ret, s.is_implemented = false := by
  simp only [generateOptimizationSuggestions, hfind]
  refine ⟨_, _, rfl, ?_, rfl, insertSuggestionRows_implemented _ _ _⟩
  rw [insertSuggestionRows_length]
  unfold outlineSuggestionList
  simp only [List.length_append]
  have h3 := generateHeadingSuggestions_one J outline
  have h6 := generateKeywordDensitySuggestions_le J outline
  have h7 := generateReadabilitySuggestions_le outline
  have h4 : (generateInternalLinkingSuggestions outline).length = 1 := rfl
  have h5 : (generateImageSuggestions outline).length = 1 := rfl
  omega

/-- Witness for `generateOptimizationSuggestions_batch`; `sampleOutline` is
a concrete stored outline. -/
theorem generateOptimizationSuggestions_batch_witness :
    ∃ ret db',
      generateOptimizationSuggestions ⟨fun _ => true, fun _ => none⟩ 1 0
        [sampleOutline] [] = .ok (ret, db') ∧
      5 ≤ ret.length ∧ db' = ([] : List SuggestionRow) ++ ret ∧
      ∀ s ∈ ret, s.is_implemented = false :=
  generateOptimizationSuggestions_batch ⟨fun _ => true, fun _ => none⟩ 1 0
    [sampleOutline] [] sampleOutline rfl

/-- C6: for every existing outline whose title has length 97 and whose
meta_description has length 178, the returned suggestion set contains a
title suggestion with priority high and impact_score 85 and a
meta_description suggestion with priority medium and impact_score 65. -/
theorem generateOptimizationSuggestions_titlemeta (J : JsonOracle)
    (oid now : ℕ) (outlines : List ContentOutlineRow)
    (suggestionsDb : List SuggestionRow) (outline : ContentOutlineRow)
    (hfind : outlines.find? (fun o => o.id == oid) = some outline)
    (htitle : outline.title.length = 97)
    (hmeta : ∃ m, outline.meta_description = some m ∧ m.length = 178) :
    ∃ ret db',
      generateOptimizationSuggestions J oid now outlines suggestionsDb =
        .ok (ret, db') ∧
      (∃ s ∈ ret, s.suggestion_type = SuggestionType.title ∧
        s.priority = Priority.high ∧ s.impact_score = 85) ∧
      (∃ s ∈ ret, s.suggestion_type = SuggestionType.meta_description ∧
        s.priority = Priority.medium ∧ s.impact_score = 65) := by
  obtain ⟨m, hm, hmlen⟩ := hmeta
  simp only [generateOptimizationSuggestions, hfind]
  refine ⟨_, _, rfl, ?_, ?_⟩
  · have hd : (⟨outline.id, .title, .high,
        "Title is too long for search results. Consider shortening to 50-60 characters.",
        some (toString outline.title.length ++ " characters"),
        some "50-60 characters", 85, false⟩ : SuggestionData) ∈
        outlineSuggestionList J outline := by
      simp only [outlineSuggestionList, List.mem_append]
      refine Or.inl (Or.inl (Or.inl (Or.inl (Or.inl (Or.inl ?_)))))
      simp only [generateTitleSuggestions]
      rw [if_pos (by omega : outline.title.length > 60)]
      exact List.mem_append_left _ (List.mem_cons_self _ _)
    obtain ⟨r, hr, h1, h2, h3⟩ := insertSuggestionRows_mem now _ _ _ hd
    exact ⟨r, hr, h1, h2, h3⟩
  · have hne : ¬ (outline.meta_description.getD "" = "") := by
      rw [hm, Option.getD_some]
      intro h
      rw [h] at hmlen
      simp at hmlen
    have hlen : (outline.meta_description.getD "").length > 160 := by
      rw [hm, Option.getD_some, hmlen]
      omega
    have hd : (⟨outline.id, .meta_description, .medium,
        "Meta description is too long and may be truncated in search results.",
        some (toString (outline.meta_description.getD "").length ++ " characters"),
        some "150-160 characters", 65, false⟩ : SuggestionData) ∈
        outlineSuggestionList J outline := by
      simp only [outlineSuggestionList, List.mem_append]
      refine Or.inl (Or.inl (Or.inl (Or.inl (Or.inl (Or.inr ?_)))))
      simp only [generateMetaDescriptionSuggestions]
      rw [if_neg hne, if_pos hlen]
      exact List.mem_append_left _ (List.mem_cons_self _ _)
    obtain ⟨r, hr, h1, h2, h3⟩ := insertSuggestionRows_mem now _ _ _ hd
    exact ⟨r, hr, h1, h2, h3⟩

/-- Witness for `generateOptimizationSuggestions_titlemeta`:
`sampleOutline` has a 97-character title and a 178-character meta
description. -/
theorem generateOptimizationSuggestions_titlemeta_witness :
    ∃ ret db',
      generateOptimizationSuggestions ⟨fun _ => true, fun _ => none⟩ 1 0
        [sampleOutline] [] = .ok (ret, db') ∧
      (∃ s ∈ ret, s.suggestion_type = SuggestionType.title ∧
        s.priority = Priority.high ∧ s.impact_score = 85) ∧
      (∃ s ∈ ret, s.suggestion_type = SuggestionType.meta_description ∧
        s.priority = Priority.medium ∧ s.impact_score = 65) :=
  generateOptimizationSuggestions_titlemeta ⟨fun _ => true, fun _ => none⟩ 1 0
    [sampleOutline] [] sampleOutline rfl rfl
    ⟨String.mk (List.replicate 178 'b'), rfl, rfl⟩

/-! ### C7: the suggestion status tracker -/

theorem updateSuggestionStatus_cons_skip (suggestionId : ℕ) (flag : Bool)
    (a : SuggestionRow) (l : List SuggestionRow)
    (ha : (a.id == suggestionId) = false) :
    updateSuggestionStatus suggestionId flag (a :: l) =
      ((updateSuggestionStatus suggestionId flag l).1,
        a :: (updateSuggestionStatus suggestionId flag l).2) := by
  unfold updateSuggestionStatus
  simp only [List.map_cons, ha, Bool.false_eq_true, if_false,
    List.filter_cons]
  cases hfil : ((l.map fun r =>
      if r.id == suggestionId then { r with is_implemented := flag }
      else r).filter (fun r => r.id == suggestionId)) with
  | nil => rfl
  | cons x xs => rfl

/-- C7: toggling an unknown suggestion id returns null and leaves the table
unchanged; toggling a known id returns the first matching entity with
is_implemented set to the given flag and every other field unchanged, and
the flip is persisted in the table. -/
theorem updateSuggestionStatus_spec (suggestionId : ℕ) (flag : Bool)
    (db : List SuggestionRow) :
    (db.find? (fun r => r.id == suggestionId) = none →
      updateSuggestionStatus suggestionId flag db = (none, db)) ∧
    (∀ r, db.find? (fun r => r.id == suggestionId) = some r →
      (updateSuggestionStatus suggestionId flag db).1 =
        some { r with is_implemented := flag } ∧
      ((updateSuggestionStatus suggestionId flag db).2.find?
        (fun x => x.id == suggestionId)) =
          some { r with is_implemented := flag }) := by
  induction db with
  | nil =>
    refine ⟨fun _ => rfl, fun r hr => ?_⟩
    simp at hr
  | cons a l ih =>
    cases ha : (a.id == suggestionId) with
    | true =>
      refine ⟨fun hnone => ?_, fun r hr => ?_⟩
      · simp only [List.find?_cons, ha, if_true] at hnone
        cases hnone
      · simp only [List.find?_cons, ha, if_true] at hr
        injection hr with hr'
        subst hr'
        have hup : updateSuggestionStatus suggestionId flag (a :: l) =
            (some { a with is_implemented := flag },
              { a with is_implemented := flag } ::
                l.map (fun r =>
                  if r.id == suggestionId then
                    { r with is_implemented := flag }
                  else r)) := by
          unfold updateSuggestionStatus
          simp only [List.map_cons, ha, if_true, List.filter_cons]
        refine ⟨?_, ?_⟩
        · rw [hup]
        · rw [hup]
          simp only [List.find?_cons, ha, if_true]
    | false =>
      rw [updateSuggestionStatus_cons_skip suggestionId flag a l ha]
      refine ⟨fun hnone => ?_, fun r hr => ?_⟩
      · simp only [List.find?_cons, ha] at hnone
        rw [ih.1 hnone]
      · simp only [List.find?_cons, ha] at hr
        obtain ⟨h1, h2⟩ := ih.2 r hr
        refine ⟨h1, ?_⟩
        simp only [List.find?_cons, ha]
        exact h2

/-- Witness for `updateSuggestionStatus_spec` at a concrete one-row
table. -/
theorem updateSuggestionStatus_spec_witness :
    (updateSuggestionStatus 1 true
        [⟨1, 1, SuggestionType.title, Priority.high, "s", none, none, 85,
          false, 0⟩]).1 =
      some { (⟨1, 1, SuggestionType.title, Priority.high, "s", none, none, 85,
        false, 0⟩ : SuggestionRow) with is_implemented := true } ∧
    ((updateSuggestionStatus 1 true
        [⟨1, 1, SuggestionType.title, Priority.high, "s", none, none, 85,
          false, 0⟩]).2.find? (fun x => x.id == 1)) =
      some { (⟨1, 1, SuggestionType.title, Priority.high, "s", none, none, 85,
        false, 0⟩ : SuggestionRow) with is_implemented := true } :=
  (updateSuggestionStatus_spec 1 true
    [⟨1, 1, SuggestionType.title, Priority.high, "s", none, none, 85,
      false, 0⟩]).2
    ⟨1, 1, SuggestionType.title, Priority.high, "s", none, none, 85,
      false, 0⟩ rfl

/-! ### C8: partial update of a content outline -/

theorem updateContentOutline_found (input : UpdateContentOutlineInput)
    (now : ℕ) (db : List ContentOutlineRow) (o : ContentOutlineRow)
    (hfind : db.find? (fun x => x.id == input.id) = some o) :
    ∃ db', updateContentOutline input now db =
        .ok (applyOutlineUpdate input now o, db') ∧
      db'.find? (fun x => x.id == input.id) =
        some (applyOutlineUpdate input now o) := by
  induction db with
  | nil => simp at hfind
  | cons a l ih =>
    cases ha : (a.id == input.id) with
    | true =>
      simp only [List.find?_cons, ha, if_true] at hfind
      injection hfind with h
      subst h
      have hae : a.id = input.id := by simpa using ha
      refine ⟨(a :: l).map (fun x =>
        if x.id == input.id then applyOutlineUpdate input now x else x),
        ?_, ?_⟩
      · simp [updateContentOutline, List.find?_cons, ha, hae,
          List.filter_cons, applyOutlineUpdate]
      · simp [updateContentOutline, applyOutlineUpdate, ha, hae,
          List.find?_cons, List.filter_cons]
    | false =>
      simp only [List.find?_cons, ha] at hfind
      obtain ⟨db', h1, h2⟩ := ih hfind
      refine ⟨a :: db', ?_, ?_⟩
      · simp only [updateContentOutline, List.find?_cons, ha, hfind,
          List.map_cons, List.filter_cons] at h1 ⊢
        simp only [Bool.false_eq_true, if_false]
        cases hfil : ((l.map fun x =>
            if x.id == input.id then applyOutlineUpdate input now x
            else x).filter (fun x => x.id == input.id)) with
        | nil =>
          rw [hfil] at h1
          cases h1
        | cons y ys =>
          rw [hfil] at h1
          injection h1 with h1'
          injection h1' with hy hdb
          rw [← hy, ← hdb]
          simp [ha]
      · simp only [List.find?_cons, ha]
        exact h2

/-- C8: for every update of an existing content outline, only the supplied
fields change, all unsupplied fields keep their previous values, and
updated_at is set to the update time on every update, even when no field
value is supplied; the updated row is persisted. -/
theorem updateContentOutline_partial (input : UpdateContentOutlineInput)
    (now : ℕ) (db : List ContentOutlineRow) (o : ContentOutlineRow)
    (hfind : db.find? (fun x => x.id == input.id) = some o) :
    ∃ ret db', updateContentOutline input now db = .ok (ret, db') ∧
      ret.id = o.id ∧ ret.created_at = o.created_at ∧ ret.updated_at = now ∧
      ret.title = input.title.getD o.title ∧
      ret.target_keyword = input.target_keyword.getD o.target_keyword ∧
      ret.secondary_keywords =
        input.secondary_keywords.getD o.secondary_keywords ∧
      ret.meta_description = input.meta_description.getD o.meta_description ∧
      ret.word_count_target =
        input.word_count_target.getD o.word_count_target ∧
      ret.outline_structure =
        input.outline_structure.getD o.outline_structure ∧
      ret.seo_suggestions = input.seo_suggestions.getD o.seo_suggestions ∧
      ret.content_type = input.content_type.getD o.content_type ∧
      ret.difficulty_level = input.difficulty_level.getD o.difficulty_level ∧
      ret.estimated_reading_time =
        input.estimated_reading_time.getD o.estimated_reading_time ∧
      db'.find? (fun x => x.id == input.id) = some ret := by
  obtain ⟨db', h1, h2⟩ := updateContentOutline_found input now db o hfind
  exact ⟨applyOutlineUpdate input now o, db', h1, rfl, rfl, rfl, rfl, rfl,
    rfl, rfl, rfl, rfl, rfl, rfl, rfl, rfl, h2⟩

/-- Witness for `updateContentOutline_partial`: update only the title of
`sampleOutline`. -/
theorem updateContentOutline_partial_witness :
    ∃ ret db', updateContentOutline
        ⟨1, some "New title", none, none, none, none, none, none, none,
          none, none⟩ 7 [sampleOutline] = .ok (ret, db') ∧
      ret.id = sampleOutline.id ∧ ret.created_at = sampleOutline.created_at ∧
      ret.updated_at = 7 ∧
      ret.title = (some "New title").getD sampleOutline.title ∧
      ret.target_keyword = none.getD sampleOutline.target_keyword ∧
      ret.secondary_keywords = none.getD sampleOutline.secondary_keywords ∧
      ret.meta_description = none.getD sampleOutline.meta_description ∧
      ret.word_count_target = none.getD sampleOutline.word_count_target ∧
      ret.outline_structure = none.getD sampleOutline.outline_structure ∧
      ret.seo_suggestions = none.getD sampleOutline.seo_suggestions ∧
      ret.content_type = none.getD sampleOutline.content_type ∧
      ret.difficulty_level = none.getD sampleOutline.difficulty_level ∧
      ret.estimated_reading_time =
        none.getD sampleOutline.estimated_reading_time ∧
      db'.find? (fun x => x.id == 1) = some ret :=
  updateContentOutline_partial
    ⟨1, some "New title", none, none, none, none, none, none, none, none,
      none⟩ 7 [sampleOutline] sampleOutline rfl

end SeoWriter
